import Mathlib

/-
Verification of the market-data tool server (stock_price_server.py) and the
document-OCR front end (app.py) of the To-Data-Beyond repository.

Embedding conventions:
  - Python floats are modelled as rationals (the operations used are
    comparison, negation literals, and fixed-point formatting; float
    rounding ties never arise at the inputs considered).
  - A call into the yfinance provider that may raise is modelled by
    PyResult: either a value or an exception message.  The try/except
    blocks of the source become pattern matches on PyResult.
  - A pandas DataFrame returned by ticker.history is abstracted to the
    data the source reads from it: its Close column (for emptiness and
    iloc[-1]) and its to_csv rendering.
-/

/-- Price values: Python floats modelled as rationals. -/
abbrev Price := ℚ

/-- Outcome of a Python call that may raise: a value, or an exception
carrying the text that str(e) would produce. -/
inductive PyResult (α : Type) where
  | ok : α → PyResult α
  | exn : String → PyResult α
  deriving DecidableEq

/-- Abstraction of the pandas DataFrame returned by ticker.history:
the Close column (empty iff the frame is empty, last entry is
data.Close.iloc at -1) and the string produced by data.to_csv. -/
structure DataFrame where
  closes : List Price
  csv : String
  deriving DecidableEq

/-- The yfinance environment: what ticker.history(period) and the
regularMarketPrice field of ticker.info return for each symbol, either a
value or a raised exception.  info carries none when the field is absent
(info.get returns None). -/
structure Provider where
  history : String → String → PyResult DataFrame
  info : String → PyResult (Option Price)

/-- Embedding of get_stock_price (stock_price_server.py lines 8-31):
try the last close of the 1d history; if the frame is empty fall back to
regularMarketPrice; on a missing field or any raised exception return the
sentinel -1.0. -/
def get_stock_price (env : Provider) (symbol : String) : Price :=
  match env.history symbol "1d" with
  | PyResult.exn _ => -1
  | PyResult.ok data =>
    match data.closes.getLast? with
    | some price => price
    | none =>
      match env.info symbol with
      | PyResult.exn _ => -1
      | PyResult.ok (some price) => price
      | PyResult.ok none => -1

/-- Two decimal digits of n % 100, zero padded, as in Python fixed-point
formatting. -/
def twoDigits (n : ℕ) : String :=
  String.mk [Char.ofNat (48 + n / 10 % 10), Char.ofNat (48 + n % 10)]

/-- The number of cents after rounding a price to the nearest hundredth:
the floor of 100 * q + 1/2, computed on the reduced numerator and
denominator so that it evaluates by integer arithmetic. -/
def roundCents (q : Price) : ℤ :=
  (200 * q.num + q.den).fdiv (2 * q.den)

/-- Embedding of the Python format specifier .2f: round to the nearest
hundredth and print with exactly two fractional digits. -/
def fmt2 (q : Price) : String :=
  let c : ℤ := roundCents q
  let sign := if c < 0 then "-" else ""
  sign ++ toString (c.natAbs / 100) ++ "." ++ twoDigits (c.natAbs % 100)

/-- Embedding of stock_resource (stock_price_server.py lines 34-42). -/
def stock_resource (env : Provider) (symbol : String) : String :=
  let price := get_stock_price env symbol
  if price < 0 then
    "Error: Could not retrieve price for symbol \x27" ++ symbol ++ "\x27."
  else
    "The current price of \x27" ++ symbol ++ "\x27 is $" ++ fmt2 price ++ "."

/-- Embedding of get_stock_history (stock_price_server.py lines 45-63). -/
def get_stock_history (env : Provider) (symbol : String)
    (period : String := "1mo") : String :=
  match env.history symbol period with
  | PyResult.exn e => "Error fetching historical data: " ++ e
  | PyResult.ok data =>
    if data.closes.isEmpty then
      "No historical data found for symbol \x27" ++ symbol ++
        "\x27 with period \x27" ++ period ++ "\x27."
    else
      data.csv

/-- Embedding of compare_stocks (stock_price_server.py lines 66-85). -/
def compare_stocks (env : Provider) (symbol1 symbol2 : String) : String :=
  let price1 := get_stock_price env symbol1
  let price2 := get_stock_price env symbol2
  if price1 < 0 ∨ price2 < 0 then
    "Error: Could not retrieve data for comparison of \x27" ++ symbol1 ++
      "\x27 and \x27" ++ symbol2 ++ "\x27."
  else if price1 > price2 then
    symbol1 ++ " ($" ++ fmt2 price1 ++ ") is higher than " ++ symbol2 ++
      " ($" ++ fmt2 price2 ++ ")."
  else if price1 < price2 then
    symbol1 ++ " ($" ++ fmt2 price1 ++ ") is lower than " ++ symbol2 ++
      " ($" ++ fmt2 price2 ++ ")."
  else
    "Both " ++ symbol1 ++ " and " ++ symbol2 ++
      " have the same price ($" ++ fmt2 price1 ++ ")."

/-- Which arm of compare_stocks fires; mirrors its if/elif/else chain. -/
inductive CompareBranch where
  | err | higher | lower | same
  deriving DecidableEq

/-- The branch of compare_stocks taken at a given environment and pair of
symbols. -/
def compare_branch (env : Provider) (symbol1 symbol2 : String) : CompareBranch :=
  let price1 := get_stock_price env symbol1
  let price2 := get_stock_price env symbol2
  if price1 < 0 ∨ price2 < 0 then CompareBranch.err
  else if price1 > price2 then CompareBranch.higher
  else if price1 < price2 then CompareBranch.lower
  else CompareBranch.same

/-- A provider whose daily history raises for every symbol. -/
def raisingEnv : Provider where
  history := fun _ _ => PyResult.exn "network down"
  info := fun _ => PyResult.exn "network down"

/-- C1: for every ticker symbol, if fetching the daily history raises, or
the frame is empty and the fallback info lookup raises or lacks the
regularMarketPrice field, then get_stock_price returns exactly -1.0; the
embedding is a total function into Price, so no exception escapes. -/
theorem get_stock_price_failure_sentinel (env : Provider) (symbol : String) :
    (∀ e, env.history symbol "1d" = PyResult.exn e →
      get_stock_price env symbol = -1) ∧
    (∀ d, env.history symbol "1d" = PyResult.ok d → d.closes = [] →
      ((∃ e, env.info symbol = PyResult.exn e) ∨
        env.info symbol = PyResult.ok none) →
      get_stock_price env symbol = -1) := by
  constructor
  · intro e he
    simp [get_stock_price, he]
  · intro d hd hempty hinfo
    rcases hinfo with ⟨e, he⟩ | hnone
    · simp [get_stock_price, hd, hempty, he]
    · simp [get_stock_price, hd, hempty, hnone]

/-- Witness for C1: at a provider that raises on every call, the price is
the sentinel; also the empty-frame case with a missing field. -/
theorem get_stock_price_failure_sentinel_witness :
    get_stock_price raisingEnv "AAPL" = -1 :=
  (get_stock_price_failure_sentinel raisingEnv "AAPL").1 "network down" rfl

/-- A provider reporting a strictly negative daily close (-5) for every
symbol; the source applies no sign check to provider data, so this shows
up unchanged in the returned price. -/
def negEnv : Provider where
  history := fun _ _ => PyResult.ok { closes := [-5], csv := "Date,Close" }
  info := fun _ => PyResult.ok none

/-- Counterexample to C2 as stated: a daily bar exists (the lookup
succeeds and returns its close), yet the returned value is negative, so
get_stock_price does not return a non-negative float on success. -/
theorem get_stock_price_nonneg_counterexample :
    negEnv.history "XYZ" "1d" =
      PyResult.ok { closes := [-5], csv := "Date,Close" } ∧
    get_stock_price negEnv "XYZ" = -5 ∧
    ¬ (0 ≤ get_stock_price negEnv "XYZ") := by
  refine ⟨rfl, rfl, ?_⟩
  simp [get_stock_price, negEnv]

/-- C2 amended: the value returned is the most recent daily close when a
daily bar exists, otherwise the regularMarketPrice quote when that is
available; the result is non-negative whenever the provider-supplied
value it reproduces is non-negative. -/
theorem get_stock_price_success_value (env : Provider) (symbol : String) :
    (∀ d r, env.history symbol "1d" = PyResult.ok d →
      d.closes.getLast? = some r →
      get_stock_price env symbol = r ∧ (0 ≤ r → 0 ≤ get_stock_price env symbol)) ∧
    (∀ d p, env.history symbol "1d" = PyResult.ok d → d.closes = [] →
      env.info symbol = PyResult.ok (some p) →
      get_stock_price env symbol = p ∧ (0 ≤ p → 0 ≤ get_stock_price env symbol)) := by
  constructor
  · intro d r hd hr
    have hval : get_stock_price env symbol = r := by
      simp [get_stock_price, hd, hr]
    exact ⟨hval, fun h0 => hval ▸ h0⟩
  · intro d p hd hempty hp
    have hval : get_stock_price env symbol = p := by
      simp [get_stock_price, hd, hempty, hp]
    exact ⟨hval, fun h0 => hval ▸ h0⟩

/-- A provider with a non-empty daily bar of close 150 for every symbol. -/
def close150Env : Provider where
  history := fun _ _ => PyResult.ok { closes := [150], csv := "Date,Close" }
  info := fun _ => PyResult.ok none

/-- Witness for the amended C2: with a daily close of 150 the lookup
returns 150, which is non-negative. -/
theorem get_stock_price_success_value_witness :
    get_stock_price close150Env "AAPL" = 150 ∧
    (0 ≤ (150 : Price) → 0 ≤ get_stock_price close150Env "AAPL") :=
  (get_stock_price_success_value close150Env "AAPL").1
    { closes := [150], csv := "Date,Close" } 150 rfl rfl

/-- A provider whose daily close is -5 for the symbol NEG and 10 for
every other symbol. -/
def mixEnv : Provider where
  history := fun s _ =>
    if s = "NEG" then PyResult.ok { closes := [-5], csv := "" }
    else PyResult.ok { closes := [10], csv := "" }
  info := fun _ => PyResult.ok none

/-- Counterexample to C3 as stated: neither lookup returns the sentinel
-1.0 (they return -5 and 10), yet compare_stocks returns the error
string, not one of the three natural-language comparisons. -/
theorem compare_stocks_sentinel_counterexample :
    get_stock_price mixEnv "NEG" = -5 ∧
    get_stock_price mixEnv "POS" = 10 ∧
    get_stock_price mixEnv "NEG" ≠ -1 ∧
    get_stock_price mixEnv "POS" ≠ -1 ∧
    compare_stocks mixEnv "NEG" "POS" =
      "Error: Could not retrieve data for comparison of \x27NEG\x27 and \x27POS\x27." ∧
    compare_stocks mixEnv "NEG" "POS" ≠
      "NEG ($" ++ fmt2 (get_stock_price mixEnv "NEG") ++ ") is higher than POS ($" ++
        fmt2 (get_stock_price mixEnv "POS") ++ ")." ∧
    compare_stocks mixEnv "NEG" "POS" ≠
      "NEG ($" ++ fmt2 (get_stock_price mixEnv "NEG") ++ ") is lower than POS ($" ++
        fmt2 (get_stock_price mixEnv "POS") ++ ")." ∧
    compare_stocks mixEnv "NEG" "POS" ≠
      "Both NEG and POS have the same price ($" ++
        fmt2 (get_stock_price mixEnv "NEG") ++ ")." := by
  decide

/-- Shared branch analysis of compare_stocks: with both prices
non-negative the error arm is skipped and the comparison chain renders
the messages of the source verbatim. -/
theorem compare_stocks_branches (env : Provider) (s1 s2 : String)
    (h1 : 0 ≤ get_stock_price env s1) (h2 : 0 ≤ get_stock_price env s2) :
    compare_stocks env s1 s2 =
      if get_stock_price env s2 < get_stock_price env s1 then
        s1 ++ " ($" ++ fmt2 (get_stock_price env s1) ++ ") is higher than " ++
          s2 ++ " ($" ++ fmt2 (get_stock_price env s2) ++ ")."
      else if get_stock_price env s1 < get_stock_price env s2 then
        s1 ++ " ($" ++ fmt2 (get_stock_price env s1) ++ ") is lower than " ++
          s2 ++ " ($" ++ fmt2 (get_stock_price env s2) ++ ")."
      else
        "Both " ++ s1 ++ " and " ++ s2 ++ " have the same price ($" ++
          fmt2 (get_stock_price env s1) ++ ")." := by
  have hcond : ¬ (get_stock_price env s1 < 0 ∨ get_stock_price env s2 < 0) := by
    push_neg
    exact ⟨h1, h2⟩
  simp only [compare_stocks, if_neg hcond, gt_iff_lt]

/-- C3 amended: compare_stocks returns the formatted error string naming
both symbols if either underlying lookup returns a negative price (in
particular the sentinel -1.0), and otherwise (both prices non-negative)
returns the natural-language comparison, higher, lower or equal, with
each price formatted to two decimal places. -/
theorem compare_stocks_spec (env : Provider) (s1 s2 : String) :
    (get_stock_price env s1 < 0 ∨ get_stock_price env s2 < 0 →
      compare_stocks env s1 s2 =
        "Error: Could not retrieve data for comparison of \x27" ++ s1 ++
          "\x27 and \x27" ++ s2 ++ "\x27.") ∧
    (0 ≤ get_stock_price env s1 → 0 ≤ get_stock_price env s2 →
      compare_stocks env s1 s2 =
        if get_stock_price env s2 < get_stock_price env s1 then
          s1 ++ " ($" ++ fmt2 (get_stock_price env s1) ++ ") is higher than " ++
            s2 ++ " ($" ++ fmt2 (get_stock_price env s2) ++ ")."
        else if get_stock_price env s1 < get_stock_price env s2 then
          s1 ++ " ($" ++ fmt2 (get_stock_price env s1) ++ ") is lower than " ++
            s2 ++ " ($" ++ fmt2 (get_stock_price env s2) ++ ")."
        else
          "Both " ++ s1 ++ " and " ++ s2 ++ " have the same price ($" ++
            fmt2 (get_stock_price env s1) ++ ").") := by
  constructor
  · intro hneg
    simp only [compare_stocks, if_pos hneg]
  · intro h1 h2
    exact compare_stocks_branches env s1 s2 h1 h2

/-- Witness for the amended C3: the error side at the sentinel produced
by an always-raising provider. -/
theorem compare_stocks_spec_witness :
    compare_stocks raisingEnv "AAA" "BBB" =
      "Error: Could not retrieve data for comparison of \x27AAA\x27 and \x27BBB\x27." :=
  (compare_stocks_spec raisingEnv "AAA" "BBB").1 (by decide)

/-- Every fmt2 rendering ends in a dot followed by exactly two digits. -/
theorem fmt2_two_decimals (q : Price) :
    ∃ a m, fmt2 q = a ++ "." ++ twoDigits m ∧ (twoDigits m).length = 2 := by
  refine ⟨(if roundCents q < 0 then "-" else "") ++
      toString ((roundCents q).natAbs / 100),
    (roundCents q).natAbs % 100, rfl, rfl⟩

/-- A provider with daily close 150 for the symbol AAA and 140 for every
other symbol, matching the example prices of the spec. -/
def cmpEnv : Provider where
  history := fun s _ =>
    if s = "AAA" then PyResult.ok { closes := [150], csv := "" }
    else PyResult.ok { closes := [140], csv := "" }
  info := fun _ => PyResult.ok none

/-- C4: when both lookups return known (valid, hence non-negative) prices
with the first strictly higher, compare_stocks states that the first
symbol is higher, and each displayed price carries exactly two decimal
places. -/
theorem compare_stocks_higher_correct (env : Provider) (s1 s2 : String)
    (h2 : 0 ≤ get_stock_price env s2)
    (hlt : get_stock_price env s2 < get_stock_price env s1) :
    compare_stocks env s1 s2 =
      s1 ++ " ($" ++ fmt2 (get_stock_price env s1) ++ ") is higher than " ++
        s2 ++ " ($" ++ fmt2 (get_stock_price env s2) ++ ")." ∧
    (∃ a m, fmt2 (get_stock_price env s1) = a ++ "." ++ twoDigits m ∧
      (twoDigits m).length = 2) ∧
    (∃ a m, fmt2 (get_stock_price env s2) = a ++ "." ++ twoDigits m ∧
      (twoDigits m).length = 2) := by
  have h1 : 0 ≤ get_stock_price env s1 := le_trans h2 (le_of_lt hlt)
  refine ⟨?_, fmt2_two_decimals _, fmt2_two_decimals _⟩
  have h := compare_stocks_branches env s1 s2 h1 h2
  rw [h, if_pos hlt]

/-- Witness for C4 at the spec prices 150 and 140: the rendered message. -/
theorem compare_stocks_higher_correct_witness :
    compare_stocks cmpEnv "AAA" "BBB" =
      "AAA ($150.00) is higher than BBB ($140.00)." := by
  have h :=
    (compare_stocks_higher_correct cmpEnv "AAA" "BBB" (by decide) (by decide)).1
  rw [h]
  decide

/-- State of the OCR process (app.py): whether the st.cache_resource
entry of load_model is filled, and how many times each from_pretrained
load has executed in this process. -/
structure OcrState where
  cached : Bool
  processorLoads : Nat
  modelLoads : Nat
  deriving DecidableEq

/-- The state of a freshly started OCR process: nothing cached, nothing
loaded. -/
def initState : OcrState :=
  { cached := false, processorLoads := 0, modelLoads := 0 }

/-- Embedding of load_model (app.py lines 57-65): under st.cache_resource
the body, which loads the processor and the model, runs only when no
cached entry exists, and fills the cache. -/
def load_model (s : OcrState) : OcrState :=
  if s.cached then s
  else { cached := true, processorLoads := s.processorLoads + 1,
         modelLoads := s.modelLoads + 1 }

/-- Embedding of ocr_pipeline (app.py lines 20-55) restricted to its
model-management effect: it calls AutoProcessor.from_pretrained and
AutoModelForVision2Seq.from_pretrained directly at the top of every
invocation, and never consults load_model or its cache. -/
def ocr_pipeline (s : OcrState) : OcrState :=
  { s with processorLoads := s.processorLoads + 1,
           modelLoads := s.modelLoads + 1 }

/-- Embedding of the per-upload control flow of main (app.py lines
68-105): each uploaded image is handled by exactly one ocr_pipeline
call, one request after another. -/
def process_requests : Nat → OcrState → OcrState
  | 0, s => s
  | n + 1, s => process_requests n (ocr_pipeline s)

/-- Each request adds one processor load and one model load, and the
load_model cache is never touched. -/
theorem process_requests_loads (n : Nat) (s : OcrState) :
    (process_requests n s).modelLoads = s.modelLoads + n ∧
    (process_requests n s).processorLoads = s.processorLoads + n ∧
    (process_requests n s).cached = s.cached := by
  induction n generalizing s with
  | zero => simp [process_requests]
  | succ n ih =>
    have h := ih (ocr_pipeline s)
    simp only [process_requests, ocr_pipeline] at h ⊢
    refine ⟨h.1.trans (by omega), h.2.1.trans (by omega), h.2.2⟩

/-- C5 (refuting the claim on the code as written): after n uploads the
process has performed n model loads, not at most one, because
ocr_pipeline reloads the model on every invocation and never uses the
cached load_model; in particular the second request performs a fresh
load.  The cached loader itself would load at most once, so the cache
design the claim describes is present but dead. -/
theorem ocr_pipeline_reloads_model_every_request :
    (∀ n, (process_requests n initState).modelLoads = n ∧
      (process_requests n initState).cached = false) ∧
    (process_requests 2 initState).modelLoads = 2 ∧
    ¬ ((process_requests 2 initState).modelLoads ≤ 1) ∧
    (∀ s, (load_model (load_model s)).modelLoads = (load_model s).modelLoads) := by
  refine ⟨fun n => ?_, by decide, by decide, fun s => ?_⟩
  · have h := process_requests_loads n initState
    exact ⟨by simpa [initState] using h.1, by simpa [initState] using h.2.2⟩
  · by_cases hc : s.cached <;> simp [load_model, hc]

/-- C6: when every provider call raises, each market-data operation still
returns a normal value: the sentinel -1.0 for the price lookup and a
human-readable error string for the other three; in the embedding all
four operations are total functions into Price or String, so no
exception can escape to the caller. -/
theorem market_ops_normalize_failures (env : Provider) (s1 s2 period : String)
    (hh : ∀ sym p, ∃ e, env.history sym p = PyResult.exn e) :
    get_stock_price env s1 = -1 ∧
    (∃ m, get_stock_history env s1 period =
      "Error fetching historical data: " ++ m) ∧
    compare_stocks env s1 s2 =
      "Error: Could not retrieve data for comparison of \x27" ++ s1 ++
        "\x27 and \x27" ++ s2 ++ "\x27." ∧
    stock_resource env s1 =
      "Error: Could not retrieve price for symbol \x27" ++ s1 ++ "\x27." := by
  obtain ⟨e1, he1⟩ := hh s1 "1d"
  obtain ⟨e2, he2⟩ := hh s2 "1d"
  obtain ⟨e3, he3⟩ := hh s1 period
  have hp1 : get_stock_price env s1 = -1 := by simp [get_stock_price, he1]
  have hp2 : get_stock_price env s2 = -1 := by simp [get_stock_price, he2]
  have hneg1 : get_stock_price env s1 < 0 := by rw [hp1]; norm_num
  refine ⟨hp1, ⟨e3, by simp [get_stock_history, he3]⟩, ?_, ?_⟩
  · simp only [compare_stocks, if_pos (Or.inl hneg1)]
  · simp only [stock_resource, if_pos hneg1]

/-- Witness for C6: the always-raising provider. -/
theorem market_ops_normalize_failures_witness :
    get_stock_price raisingEnv "AAA" = -1 ∧
    (∃ m, get_stock_history raisingEnv "AAA" "1mo" =
      "Error fetching historical data: " ++ m) ∧
    compare_stocks raisingEnv "AAA" "BBB" =
      "Error: Could not retrieve data for comparison of \x27" ++ "AAA" ++
        "\x27 and \x27" ++ "BBB" ++ "\x27." ∧
    stock_resource raisingEnv "AAA" =
      "Error: Could not retrieve price for symbol \x27" ++ "AAA" ++ "\x27." :=
  market_ops_normalize_failures raisingEnv "AAA" "BBB" "1mo"
    (fun _ _ => ⟨"network down", rfl⟩)

/-- C7: get_stock_history returns the error message carrying the raised
text when the call throws, the no-data message naming both the symbol
and the period when the series is empty, and the CSV rendering of the
series when it is non-empty. -/
theorem get_stock_history_spec (env : Provider) (symbol period : String) :
    (∀ e, env.history symbol period = PyResult.exn e →
      get_stock_history env symbol period =
        "Error fetching historical data: " ++ e) ∧
    (∀ d, env.history symbol period = PyResult.ok d → d.closes = [] →
      get_stock_history env symbol period =
        "No historical data found for symbol \x27" ++ symbol ++
          "\x27 with period \x27" ++ period ++ "\x27." ∧
      ∃ a b c, get_stock_history env symbol period =
        a ++ symbol ++ b ++ period ++ c) ∧
    (∀ d, env.history symbol period = PyResult.ok d → d.closes ≠ [] →
      get_stock_history env symbol period = d.csv) := by
  refine ⟨fun e he => by simp [get_stock_history, he],
    fun d hd hempty => ?_, fun d hd hne => ?_⟩
  · have hval : get_stock_history env symbol period =
        "No historical data found for symbol \x27" ++ symbol ++
          "\x27 with period \x27" ++ period ++ "\x27." := by
      simp [get_stock_history, hd, hempty]
    exact ⟨hval, "No historical data found for symbol \x27",
      "\x27 with period \x27", "\x27.", hval⟩
  · simp [get_stock_history, hd, List.isEmpty_iff, hne]

/-- A provider raising for the symbol BAD, with an empty series for the
symbol EMPTY and a one-row series for every other symbol. -/
def histEnv : Provider where
  history := fun s _ =>
    if s = "EMPTY" then PyResult.ok { closes := [], csv := "" }
    else if s = "BAD" then PyResult.exn "boom"
    else PyResult.ok { closes := [10], csv := "Date,Open,High,Low,Close" }
  info := fun _ => PyResult.ok none

/-- Witness for C7: the empty series yields the no-data message naming
symbol and period. -/
theorem get_stock_history_spec_witness :
    get_stock_history histEnv "EMPTY" "1mo" =
      "No historical data found for symbol \x27" ++ "EMPTY" ++
        "\x27 with period \x27" ++ "1mo" ++ "\x27." ∧
    ∃ a b c, get_stock_history histEnv "EMPTY" "1mo" =
      a ++ "EMPTY" ++ b ++ "1mo" ++ c :=
  (get_stock_history_spec histEnv "EMPTY" "1mo").2.1
    { closes := [], csv := "" } rfl rfl

/-- A provider with daily close 150 for every symbol. -/
def close150AllEnv : Provider where
  history := fun _ _ => PyResult.ok { closes := [150], csv := "" }
  info := fun _ => PyResult.ok none

/-- C8: when the price lookup fails (returns the sentinel -1.0),
stock_resource returns the one-sentence error beginning with Error: and
containing the symbol; when it succeeds with a valid price, it returns
the one-sentence message containing the symbol and the price rendered to
two decimal places. -/
theorem stock_resource_spec (env : Provider) (symbol : String) :
    (get_stock_price env symbol = -1 →
      stock_resource env symbol =
        "Error: Could not retrieve price for symbol \x27" ++ symbol ++ "\x27." ∧
      (∃ rest, stock_resource env symbol = "Error:" ++ rest) ∧
      (∃ a b, stock_resource env symbol = a ++ symbol ++ b)) ∧
    (0 ≤ get_stock_price env symbol →
      stock_resource env symbol =
        "The current price of \x27" ++ symbol ++ "\x27 is $" ++
          fmt2 (get_stock_price env symbol) ++ "." ∧
      (∃ a b c, stock_resource env symbol =
        a ++ symbol ++ b ++ fmt2 (get_stock_price env symbol) ++ c)) := by
  constructor
  · intro hfail
    have hneg : get_stock_price env symbol < 0 := by rw [hfail]; norm_num
    have hval : stock_resource env symbol =
        "Error: Could not retrieve price for symbol \x27" ++ symbol ++ "\x27." := by
      simp only [stock_resource, if_pos hneg]
    refine ⟨hval,
      ⟨" Could not retrieve price for symbol \x27" ++ symbol ++ "\x27.", ?_⟩,
      ⟨"Error: Could not retrieve price for symbol \x27", "\x27.", hval⟩⟩
    rw [hval]
    simp only [← String.append_assoc]
    rfl
  · intro hpos
    have hval : stock_resource env symbol =
        "The current price of \x27" ++ symbol ++ "\x27 is $" ++
          fmt2 (get_stock_price env symbol) ++ "." := by
      simp only [stock_resource, if_neg (not_lt.mpr hpos)]
    exact ⟨hval, ⟨"The current price of \x27", "\x27 is $", ".", hval⟩⟩

/-- Witness for C8: the error sentence at an always-raising provider and
the success sentence at a provider with close 150. -/
theorem stock_resource_spec_witness :
    stock_resource raisingEnv "AAPL" =
      "Error: Could not retrieve price for symbol \x27" ++ "AAPL" ++ "\x27." ∧
    stock_resource close150AllEnv "AAPL" =
      "The current price of \x27" ++ "AAPL" ++ "\x27 is $" ++
        fmt2 (get_stock_price close150AllEnv "AAPL") ++ "." :=
  ⟨((stock_resource_spec raisingEnv "AAPL").1 rfl).1,
   ((stock_resource_spec close150AllEnv "AAPL").2 (by decide)).1⟩

/-- C9: any strictly negative looked-up price, not only the sentinel
-1.0, makes stock_resource and compare_stocks (in either argument
position) return their error strings, because the failure test in both
is price less than zero. -/
theorem negative_price_is_failure (env : Provider) (s t : String)
    (hneg : get_stock_price env s < 0) (hns : get_stock_price env s ≠ -1) :
    stock_resource env s =
      "Error: Could not retrieve price for symbol \x27" ++ s ++ "\x27." ∧
    compare_stocks env s t =
      "Error: Could not retrieve data for comparison of \x27" ++ s ++
        "\x27 and \x27" ++ t ++ "\x27." ∧
    compare_stocks env t s =
      "Error: Could not retrieve data for comparison of \x27" ++ t ++
        "\x27 and \x27" ++ s ++ "\x27." := by
  refine ⟨?_, ?_, ?_⟩
  · simp only [stock_resource, if_pos hneg]
  · simp only [compare_stocks, if_pos (Or.inl hneg)]
  · simp only [compare_stocks, if_pos (Or.inr hneg)]

/-- Witness for C9: a provider-reported close of -5, which is negative
but not the sentinel, still produces both error strings. -/
theorem negative_price_is_failure_witness :
    stock_resource mixEnv "NEG" =
      "Error: Could not retrieve price for symbol \x27" ++ "NEG" ++ "\x27." ∧
    compare_stocks mixEnv "NEG" "POS" =
      "Error: Could not retrieve data for comparison of \x27" ++ "NEG" ++
        "\x27 and \x27" ++ "POS" ++ "\x27." ∧
    compare_stocks mixEnv "POS" "NEG" =
      "Error: Could not retrieve data for comparison of \x27" ++ "POS" ++
        "\x27 and \x27" ++ "NEG" ++ "\x27." :=
  negative_price_is_failure mixEnv "NEG" "POS" (by decide) (by decide)

/-- C10: compare_stocks compares the exact prices, not their two-decimal
renderings: for valid unequal prices with equal renderings it still takes
the higher or lower branch, displaying two identical formatted prices,
and the same-price branch fires exactly when the prices are equal (and
valid). -/
theorem compare_stocks_exact_comparison (env : Provider) (s1 s2 : String) :
    (0 ≤ get_stock_price env s1 → 0 ≤ get_stock_price env s2 →
      get_stock_price env s1 ≠ get_stock_price env s2 →
      fmt2 (get_stock_price env s1) = fmt2 (get_stock_price env s2) →
      compare_stocks env s1 s2 =
        if get_stock_price env s2 < get_stock_price env s1 then
          s1 ++ " ($" ++ fmt2 (get_stock_price env s1) ++ ") is higher than " ++
            s2 ++ " ($" ++ fmt2 (get_stock_price env s1) ++ ")."
        else
          s1 ++ " ($" ++ fmt2 (get_stock_price env s1) ++ ") is lower than " ++
            s2 ++ " ($" ++ fmt2 (get_stock_price env s1) ++ ").") ∧
    (compare_branch env s1 s2 = CompareBranch.same ↔
      0 ≤ get_stock_price env s1 ∧
        get_stock_price env s1 = get_stock_price env s2) := by
  constructor
  · intro h1 h2 hne hfmt
    have hcond : ¬ (get_stock_price env s1 < 0 ∨ get_stock_price env s2 < 0) := by
      push_neg
      exact ⟨h1, h2⟩
    rcases lt_or_gt_of_ne hne with hlt | hgt
    · have hnot : ¬ get_stock_price env s2 < get_stock_price env s1 :=
        not_lt.mpr (le_of_lt hlt)
      rw [if_neg hnot]
      simp only [compare_stocks, if_neg hcond, gt_iff_lt, if_neg hnot,
        if_pos hlt, hfmt]
    · rw [if_pos hgt]
      simp only [compare_stocks, if_neg hcond, gt_iff_lt, if_pos hgt, hfmt]
  · constructor
    · intro hsame
      simp only [compare_branch] at hsame
      by_cases hc : get_stock_price env s1 < 0 ∨ get_stock_price env s2 < 0
      · rw [if_pos hc] at hsame
        exact absurd hsame (by decide)
      · rw [if_neg hc] at hsame
        push_neg at hc
        by_cases hgt : get_stock_price env s1 > get_stock_price env s2
        · rw [if_pos hgt] at hsame
          exact absurd hsame (by decide)
        · rw [if_neg hgt] at hsame
          by_cases hlt : get_stock_price env s1 < get_stock_price env s2
          · rw [if_pos hlt] at hsame
            exact absurd hsame (by decide)
          · exact ⟨hc.1, le_antisymm (not_lt.mp hgt) (not_lt.mp hlt)⟩
    · rintro ⟨h0, heq⟩
      have h2 : 0 ≤ get_stock_price env s2 := heq ▸ h0
      have hcond : ¬ (get_stock_price env s1 < 0 ∨ get_stock_price env s2 < 0) := by
        push_neg
        exact ⟨h0, h2⟩
      simp only [compare_branch]
      rw [if_neg hcond]
      simp only [gt_iff_lt, heq, lt_self_iff_false, if_false]

/-- A provider with close 100.002 for the symbol AAA and 100.001 for
every other symbol: distinct prices, identical two-decimal renderings. -/
def tieEnv : Provider where
  history := fun s _ =>
    if s = "AAA" then PyResult.ok { closes := [Rat.divInt 50001 500], csv := "" }
    else PyResult.ok { closes := [Rat.divInt 100001 1000], csv := "" }
  info := fun _ => PyResult.ok none

/-- Witness for C10: 100.002 against 100.001 renders two identical
prices in a higher-than message. -/
theorem compare_stocks_exact_comparison_witness :
    compare_stocks tieEnv "AAA" "BBB" =
      "AAA ($100.00) is higher than BBB ($100.00)." := by
  have h := (compare_stocks_exact_comparison tieEnv "AAA" "BBB").1
    (by decide) (by decide) (by decide) (by decide)
  rw [h]
  decide
